import Mathlib

/-!
Shallow embedding of the collab-khata backend (apps/backend/app) used to
check the natural-language specification against the code.

Modelling conventions:
- Calendar dates are day numbers (Nat); the Python date order is total and
  only comparisons are used.
- Money amounts (SQL Numeric(10,2), Python Decimal) are exact; they are
  embedded as integers in cents (Int), which preserves sums, differences
  and comparisons exactly.
- Python strings are lists of characters (Str); str.strip() is modelled by
  pyStrip over the ASCII whitespace characters Python strips.
- Each endpoint is embedded as the function that remains after the
  framework has authenticated the caller and validated the request schema;
  HTTP error responses become the ApiError type.
- Database rows are records; a table is a list of records.  Columns that no
  embedded operation reads or writes (surrogate ids of credits, free-text
  notes of collaborations, timestamps of brands beyond created_at, ...) are
  omitted where they cannot influence any modelled claim.
-/

namespace CollabKhata

/-- Calendar dates as abstract day numbers. -/
abbrev Date := Nat

/-- Exact decimal amounts in cents. -/
abbrev Amount := Int

/-- Python strings as lists of characters. -/
abbrev Str := List Char

/-- HTTP error outcomes raised by the embedded endpoints. -/
inductive ApiError where
  | badRequest
  | notFound
  | conflict
  | payloadTooLarge
deriving DecidableEq

/-- Characters removed by the Python str.strip() default (ASCII part). -/
def isPySpace (c : Char) : Bool :=
  c = ' ' || c = '\t' || c = '\n' || c = '\r' || c = '\x0b' || c = '\x0c'

/-- Embeds Python str.strip(): drop leading and trailing whitespace. -/
def pyStrip (s : Str) : Str :=
  ((s.dropWhile isPySpace).reverse.dropWhile isPySpace).reverse

/-- Lower-case a string character by character. -/
def lowerStr (s : Str) : Str :=
  s.map Char.toLower

/-- Decides whether the first string is an initial segment of the second. -/
def leadsWith : Str → Str → Bool
  | [], _ => true
  | _ :: _, [] => false
  | a :: as, b :: bs => a == b && leadsWith as bs

/-- Decides whether the first string occurs contiguously in the second. -/
def occursIn (needle : Str) : Str → Bool
  | [] => needle.isEmpty
  | b :: bs => leadsWith needle (b :: bs) || occursIn needle bs

/-- Embeds the SQL ilike with a pattern of the shape percent-needle-percent,
for needles without wildcard metacharacters: case-insensitive substring. -/
def containsCI (hay needle : Str) : Bool :=
  occursIn (lowerStr needle) (lowerStr hay)

/-! ## Payment data model (app/models/payment.py) -/

/-- Embeds the PaymentStatus enum.  The Python members are PENDING,
PARTIAL, COMPLETED, OVERDUE; the PARTIAL member is rendered here as
partiallyPaid. -/
inductive PaymentStatus where
  | pending
  | partiallyPaid
  | completed
  | overdue
deriving DecidableEq

/-- Embeds a PaymentCredit row (columns read by the endpoints). -/
structure PaymentCredit where
  credited_amount : Amount
  credited_date : Date
  reference_note : Option Str
deriving DecidableEq

/-- Embeds a PaymentExpectation row with its loaded credits. -/
structure PaymentExpectation where
  expected_amount : Amount
  promised_date : Option Date
  payment_method : Option Str
  status : PaymentStatus
  payment_credits : List PaymentCredit
deriving DecidableEq

/-- Embeds total_credited = sum(credit.credited_amount for credit in ...). -/
def sumCredits (credits : List PaymentCredit) : Amount :=
  (credits.map PaymentCredit.credited_amount).sum

/-- Embeds the Python truthiness test
"expectation.promised_date and expectation.promised_date < date.today()":
a date object is always truthy and None is falsy. -/
def promisedBefore (promised : Option Date) (today : Date) : Bool :=
  match promised with
  | none => false
  | some d => decide (d < today)

/-- Embeds the new_status computation inside _update_payment_status
(app/api/payments.py lines 241-254). -/
def newPaymentStatus (e : PaymentExpectation) (today : Date) : PaymentStatus :=
  let total := sumCredits e.payment_credits
  if total ≥ e.expected_amount then .completed
  else if total > 0 then .partiallyPaid
  else if promisedBefore e.promised_date today then .overdue
  else .pending

/-- Embeds _update_payment_status (app/api/payments.py lines 238-259):
returns the expectation after the call together with whether a state change
(assignment plus commit) was performed. -/
def updatePaymentStatus (e : PaymentExpectation) (today : Date) :
    PaymentExpectation × Bool :=
  let ns := newPaymentStatus e today
  if ns ≠ e.status then ({ e with status := ns }, true) else (e, false)

/-- States the recomputation rule in the words of the specification
(spec section 4.8): Completed iff T at least E, else Partial iff T
positive, else Overdue iff D present and before today, else Pending. -/
def specStatus (E T : Amount) (D : Option Date) (today : Date) : PaymentStatus :=
  if T ≥ E then .completed
  else if T > 0 then .partiallyPaid
  else
    match D with
    | some d => if d < today then .overdue else .pending
    | none => .pending

/-- Embeds list_payment_expectations (app/api/payments.py lines 55-78)
after the ownership check: every expectation of the collaboration has its
status recomputed, and the total count is the number of expectations. -/
def list_payment_expectations (es : List PaymentExpectation) (today : Date) :
    List PaymentExpectation × Nat :=
  (es.map (fun e => (updatePaymentStatus e today).1), es.length)

/-- Validated body of a POST creating a payment expectation. -/
structure PaymentExpectationCreate where
  expected_amount : Amount
  promised_date : Option Date
  payment_method : Option Str
deriving DecidableEq

/-- Embeds create_payment_expectation (app/api/payments.py lines 105-122):
the row starts at PENDING with no credits and is immediately recomputed. -/
def create_payment_expectation (data : PaymentExpectationCreate) (today : Date) :
    PaymentExpectation :=
  let e : PaymentExpectation :=
    { expected_amount := data.expected_amount
      promised_date := data.promised_date
      payment_method := data.payment_method
      status := .pending
      payment_credits := [] }
  (updatePaymentStatus e today).1

/-- Validated body of a POST creating a payment credit
(schema PaymentCreditCreate: credited_amount greater than zero). -/
structure PaymentCreditCreate where
  credited_amount : Amount
  credited_date : Date
  reference_note : Option Str
deriving DecidableEq

/-- Embeds create_payment_credit (app/api/payments.py lines 152-178) after
the ownership lookup: the balance check, then credit insertion, then the
status recomputation.  The second component is the expectation row as it
stands after the request (unchanged when the request is rejected). -/
def create_payment_credit (e : PaymentExpectation) (data : PaymentCreditCreate)
    (today : Date) : Except ApiError PaymentCredit × PaymentExpectation :=
  let total := sumCredits e.payment_credits
  let remaining := e.expected_amount - total
  if data.credited_amount > remaining then
    (.error .badRequest, e)
  else
    let credit : PaymentCredit :=
      { credited_amount := data.credited_amount
        credited_date := data.credited_date
        reference_note := data.reference_note }
    let e1 := { e with payment_credits := e.payment_credits ++ [credit] }
    (.ok credit, (updatePaymentStatus e1 today).1)

/-- Embeds the selection predicate of list_overdue_payments
(app/api/payments.py lines 199-206). -/
def overduePred (e : PaymentExpectation) (today : Date) : Bool :=
  promisedBefore e.promised_date today &&
    (e.status == .pending || e.status == .partiallyPaid || e.status == .overdue)

/-- Embeds days_overdue = (today - expectation.promised_date).days. -/
def daysOverdue (e : PaymentExpectation) (today : Date) : Nat :=
  match e.promised_date with
  | some d => today - d
  | none => 0

/-- Embeds list_overdue_payments (app/api/payments.py lines 181-235) for
the expectation rows of the calling user: select the overdue candidates,
recompute each status, and annotate with days overdue. -/
def list_overdue_payments (es : List PaymentExpectation) (today : Date) :
    List (PaymentExpectation × Nat) :=
  (es.filter (fun e => overduePred e today)).map
    (fun e => ((updatePaymentStatus e today).1, daysOverdue e today))

/-! ## Collaboration data model (app/models/collaboration.py) -/

/-- Embeds the CollaborationStatus enum (nine workflow states). -/
inductive CollaborationStatus where
  | lead
  | negotiating
  | confirmed
  | inProduction
  | posted
  | paymentPending
  | overdue
  | paid
  | closed
deriving DecidableEq

/-- Embeds a Collaboration row (columns read or written by the embedded
endpoints). -/
structure Collaboration where
  id : Nat
  user_id : Nat
  brand_id : Nat
  platform : Str
  status : CollaborationStatus
  posting_date : Option Date
  updated_at : Nat
deriving DecidableEq

/-- Embeds the valid_transitions table of update_collaboration_status
(app/api/collaborations.py lines 223-233). -/
def validTransitions : CollaborationStatus → List CollaborationStatus
  | .lead => [.negotiating]
  | .negotiating => [.confirmed, .lead]
  | .confirmed => [.inProduction, .negotiating]
  | .inProduction => [.posted, .confirmed]
  | .posted => [.paymentPending, .inProduction]
  | .paymentPending => [.overdue, .paid]
  | .overdue => [.paid, .paymentPending]
  | .paid => [.closed]
  | .closed => []

/-- Embeds the body of update_collaboration_status on the loaded row
(app/api/collaborations.py lines 235-259): first the transition check,
then the Posted posting-date rule, then the mutation. -/
def applyStatusUpdate (c : Collaboration) (s : CollaborationStatus)
    (pd : Option Date) : Except ApiError Collaboration :=
  if s ∈ validTransitions c.status then
    if s = .posted then
      match pd with
      | none => .error .badRequest
      | some d => .ok { c with status := s, posting_date := some d }
    else .ok { c with status := s }
  else .error .badRequest

/-- Embeds the ownership-scoped lookup used by the collaboration endpoints:
the first row with the requested id that belongs to the caller. -/
def findCollaboration (db : List Collaboration) (cid uid : Nat) :
    Option Collaboration :=
  db.find? (fun c => c.id == cid && c.user_id == uid)

/-- Embeds the commit of a mutated row: the row with that primary key is
replaced in the table. -/
def replaceCollaboration (db : List Collaboration) (c1 : Collaboration) :
    List Collaboration :=
  db.map (fun c => if c.id == c1.id then c1 else c)

/-- Embeds update_collaboration_status (app/api/collaborations.py lines
198-259) at table level: a 404 when the row is absent or foreign, the
validated transition otherwise, with the table unchanged on any error. -/
def update_collaboration_status (db : List Collaboration) (cid uid : Nat)
    (s : CollaborationStatus) (pd : Option Date) :
    Except ApiError Collaboration × List Collaboration :=
  match findCollaboration db cid uid with
  | none => (.error .notFound, db)
  | some c =>
    match applyStatusUpdate c s pd with
    | .error e => (.error e, db)
    | .ok c1 => (.ok c1, replaceCollaboration db c1)

/-- Embeds get_collaboration (app/api/collaborations.py lines 116-137). -/
def get_collaboration (db : List Collaboration) (cid uid : Nat) :
    Except ApiError Collaboration :=
  match findCollaboration db cid uid with
  | none => .error .notFound
  | some c => .ok c

/-- Query parameters of list_collaborations after schema validation. -/
structure CollabListQuery where
  status_filter : Option CollaborationStatus
  brand_id : Option Nat
  platform : Option Str
  limit : Nat
  offset : Nat
deriving DecidableEq

/-- Embeds the Python truthiness guard "if status_filter:" -- an enum
member is always truthy, None is falsy. -/
def statusFilterMatches (sf : Option CollaborationStatus)
    (c : Collaboration) : Bool :=
  match sf with
  | none => true
  | some s => c.status == s

/-- Embeds the Python truthiness guard "if brand_id:" -- both None and the
integer 0 are falsy, so a supplied 0 applies no filter. -/
def brandFilterMatches (bf : Option Nat) (c : Collaboration) : Bool :=
  match bf with
  | none => true
  | some b => if b == 0 then true else c.brand_id == b

/-- Embeds the Python truthiness guard "if platform:" -- the empty string
is falsy, so a supplied empty string applies no filter. -/
def platformFilterMatches (pf : Option Str) (c : Collaboration) : Bool :=
  match pf with
  | none => true
  | some p => if p = [] then true else containsCI c.platform p

/-- Embeds the conjunction of the user scoping and the three optional
filters of list_collaborations (app/api/collaborations.py lines 39-53). -/
def collabMatchesFilters (uid : Nat) (q : CollabListQuery)
    (c : Collaboration) : Bool :=
  c.user_id == uid && statusFilterMatches q.status_filter c &&
    brandFilterMatches q.brand_id c && platformFilterMatches q.platform c

/-- Inserts a row into a list kept in descending updated_at order. -/
def insertByUpdated (c : Collaboration) : List Collaboration → List Collaboration
  | [] => [c]
  | x :: xs =>
    if x.updated_at ≤ c.updated_at then c :: x :: xs
    else x :: insertByUpdated c xs

/-- Embeds order_by(Collaboration.updated_at.desc()) as an insertion sort
(the SQL order among equal keys is unspecified; no claim depends on it). -/
def sortByUpdatedDesc : List Collaboration → List Collaboration
  | [] => []
  | x :: xs => insertByUpdated x (sortByUpdatedDesc xs)

/-- Response shape of list_collaborations. -/
structure CollabListResponse where
  collaborations : List Collaboration
  total_count : Nat
  filtered_count : Nat
deriving DecidableEq

/-- Embeds list_collaborations (app/api/collaborations.py lines 26-74):
user scoping, the three truthiness-guarded filters, the unfiltered and
filtered counts, ordering by updated_at descending, then offset and
limit. -/
def list_collaborations (db : List Collaboration) (uid : Nat)
    (q : CollabListQuery) : CollabListResponse :=
  let filtered := db.filter (collabMatchesFilters uid q)
  { collaborations := ((sortByUpdatedDesc filtered).drop q.offset).take q.limit
    total_count := (db.filter (fun c => c.user_id == uid)).length
    filtered_count := filtered.length }

/-! ## Brand data model (app/models/brand.py) -/

/-- Embeds a Brand row. -/
structure Brand where
  id : Nat
  user_id : Nat
  name : Str
  contact_name : Option Str
  contact_email : Option Str
  contact_channel : Option Str
  notes : Option Str
  created_at : Nat
deriving DecidableEq

/-- Body of a PUT brand update.  The outer Option is presence in the
request (model_dump with exclude_unset); the inner Option is an explicit
JSON null. -/
structure BrandUpdate where
  name : Option (Option Str)
  contact_name : Option (Option Str)
  contact_email : Option (Option Str)
  contact_channel : Option (Option Str)
  notes : Option (Option Str)
deriving DecidableEq

/-- Embeds the per-field normalisation of update_brand for the four
optional string fields (app/api/brands.py lines 116-118 plus the setattr
loop): a supplied null stays null; a supplied empty string is falsy and
becomes null; any other supplied string is stripped, so a whitespace-only
string is stored as the empty string. -/
def appliedValue : Option Str → Option Str
  | none => none
  | some s => if s = [] then none else some (pyStrip s)

/-- Applies one optional update field over the current column value. -/
def applyField (f : Option (Option Str)) (cur : Option Str) : Option Str :=
  match f with
  | none => cur
  | some v => appliedValue v

/-- Applies the four optional contact fields of a brand update. -/
def applyContactFields (b : Brand) (u : BrandUpdate) : Brand :=
  { b with
      contact_name := applyField u.contact_name b.contact_name
      contact_email := applyField u.contact_email b.contact_email
      contact_channel := applyField u.contact_channel b.contact_channel
      notes := applyField u.notes b.notes }

/-- Embeds update_brand on the loaded row (app/api/brands.py lines
103-126): the name validation (400 when the supplied name is null, empty,
or whitespace-only), then the field updates. -/
def update_brand (b : Brand) (u : BrandUpdate) : Except ApiError Brand :=
  match u.name with
  | none => .ok (applyContactFields b u)
  | some none => .error .badRequest
  | some (some s) =>
    if s = [] ∨ pyStrip s = [] then .error .badRequest
    else .ok (applyContactFields { b with name := pyStrip s } u)

/-! ## User registration (app/api/auth.py) -/

/-- Embeds a User row. -/
structure UserRec where
  id : Nat
  email : Str
  hashed_password : Str
deriving DecidableEq

/-- Embeds register_user (app/api/auth.py lines 23-56) over the users
table, parameterised by the password hash.  A duplicate email is answered
with 409 and the table is unchanged; otherwise the account is inserted.
The IntegrityError branch of the source guards a concurrent commit race
and surfaces the same 409; it is unreachable in this sequential model. -/
def register_user (hash : Str → Str) (db : List UserRec) (email pw : Str) :
    Except ApiError UserRec × List UserRec :=
  match db.find? (fun u => u.email == email) with
  | some _ => (.error .conflict, db)
  | none =>
    let u : UserRec :=
      { id := db.length + 1, email := email, hashed_password := hash pw }
    (.ok u, db ++ [u])

/-- Runs a sequence of registration attempts in order. -/
def registerAll (hash : Str → Str) : List (Str × Str) → List UserRec → List UserRec
  | [], db => db
  | (e, p) :: rest, db => registerAll hash rest (register_user hash db e p).2

/-- Counts the user rows carrying a given email. -/
def countEmail (db : List UserRec) (e : Str) : Nat :=
  (db.filter (fun u => u.email == e)).length

/-- States that no email is carried by two user rows. -/
def emailUnique (db : List UserRec) : Prop :=
  ∀ e, countEmail db e ≤ 1

/-! ## File upload (app/api/conversations.py) -/

/-- Embeds MAX_FILE_SIZE = 50 * 1024 * 1024. -/
def MAX_FILE_SIZE : Nat := 50 * 1024 * 1024

/-- Embeds ALLOWED_EXTENSIONS. -/
def ALLOWED_EXTENSIONS : List Str :=
  [".pdf".toList, ".doc".toList, ".docx".toList, ".txt".toList, ".rtf".toList,
   ".jpg".toList, ".jpeg".toList, ".png".toList, ".gif".toList, ".bmp".toList,
   ".webp".toList,
   ".mp4".toList, ".avi".toList, ".mov".toList, ".wmv".toList, ".flv".toList,
   ".webm".toList,
   ".mp3".toList, ".wav".toList, ".aac".toList, ".flac".toList,
   ".zip".toList, ".rar".toList, ".7z".toList,
   ".xls".toList, ".xlsx".toList, ".csv".toList,
   ".ppt".toList, ".pptx".toList]

/-- Embeds the Python truthiness guard
"if file.size and file.size > MAX_FILE_SIZE": an absent size (None) and a
declared size of 0 are both falsy, so neither can trigger the check. -/
def sizeRejected (declared : Option Nat) : Bool :=
  match declared with
  | none => false
  | some s => if s == 0 then false else decide (s > MAX_FILE_SIZE)

/-- Embeds upload_file (app/api/conversations.py lines 125-208) after the
ownership check: the declared-size gate, then the extension gate, then the
write; the returned file_size is the byte length actually read. -/
def upload_file (declared : Option Nat) (suffix : Str)
    (content : List Nat) : Except ApiError Nat :=
  if sizeRejected declared then .error .payloadTooLarge
  else if ALLOWED_EXTENSIONS.contains (lowerStr suffix) then .ok content.length
  else .error .badRequest

/-! ## Helper lemmas -/

theorem updatePaymentStatus_fst (e : PaymentExpectation) (t : Date) :
    (updatePaymentStatus e t).1 = { e with status := newPaymentStatus e t } := by
  by_cases h : newPaymentStatus e t = e.status
  · simp [updatePaymentStatus, h]
  · simp [updatePaymentStatus, h]

theorem newPaymentStatus_eq_spec (e : PaymentExpectation) (t : Date) :
    newPaymentStatus e t =
      specStatus e.expected_amount (sumCredits e.payment_credits)
        e.promised_date t := by
  unfold newPaymentStatus specStatus promisedBefore
  cases h : e.promised_date <;> simp [h]

theorem newPaymentStatus_status_irrel (e : PaymentExpectation) (t : Date)
    (s : PaymentStatus) :
    newPaymentStatus { e with status := s } t = newPaymentStatus e t := rfl

theorem sumCredits_append (l : List PaymentCredit) (c : PaymentCredit) :
    sumCredits (l ++ [c]) = sumCredits l + c.credited_amount := by
  simp [sumCredits]

/-! ## Claim theorems -/

/-- Claim C1: the status recomputation applied on listing, on expectation
creation, on credit creation, and on the overdue report computes exactly
the specified function of the expected amount, the credited total, and the
promised date; the recomputation itself and every one of those operations
assigns and returns that computed value. -/
theorem c1_payment_status_recomputation (e : PaymentExpectation)
    (es : List PaymentExpectation) (data : PaymentExpectationCreate)
    (cdata : PaymentCreditCreate) (today : Date) :
    (updatePaymentStatus e today).1.status
        = specStatus e.expected_amount (sumCredits e.payment_credits)
            e.promised_date today
    ∧ list_payment_expectations es today
        = (es.map (fun x =>
            { x with status := (specStatus x.expected_amount
                (sumCredits x.payment_credits) x.promised_date today) }),
           es.length)
    ∧ (create_payment_expectation data today).status
        = specStatus data.expected_amount 0 data.promised_date today
    ∧ (create_payment_credit e cdata today).2.status
        = (if cdata.credited_amount >
              e.expected_amount - sumCredits e.payment_credits
           then e.status
           else specStatus e.expected_amount
                  (sumCredits e.payment_credits + cdata.credited_amount)
                  e.promised_date today)
    ∧ list_overdue_payments es today
        = (es.filter (fun x => overduePred x today)).map (fun x =>
            ({ x with status := (specStatus x.expected_amount
                 (sumCredits x.payment_credits) x.promised_date today) },
             daysOverdue x today)) := by
  have hfun : (fun x => (updatePaymentStatus x today).1)
      = fun x : PaymentExpectation =>
          { x with status := (specStatus x.expected_amount
              (sumCredits x.payment_credits) x.promised_date today) } := by
    funext x
    rw [updatePaymentStatus_fst, newPaymentStatus_eq_spec]
  refine ⟨?_, ?_, ?_, ?_, ?_⟩
  · rw [updatePaymentStatus_fst]
    exact newPaymentStatus_eq_spec e today
  · simp only [list_payment_expectations, hfun]
  · simp only [create_payment_expectation]
    rw [updatePaymentStatus_fst, newPaymentStatus_eq_spec]
    simp [sumCredits]
  · by_cases h : cdata.credited_amount >
        e.expected_amount - sumCredits e.payment_credits
    · simp [create_payment_credit, h]
    · simp only [create_payment_credit, if_neg h, if_pos]
      rw [updatePaymentStatus_fst, newPaymentStatus_eq_spec]
      simp [h, sumCredits_append]
  · simp only [list_overdue_payments]
    apply List.map_congr_left
    intro a _
    rw [congrFun hfun a]

/-- Claim C9: the recomputation is idempotent; a second run with the same
credits, amount, promised date, and the same today returns the same
expectation and performs no state change. -/
theorem c9_recompute_idempotent (e : PaymentExpectation) (today : Date) :
    updatePaymentStatus ((updatePaymentStatus e today).1) today
      = ((updatePaymentStatus e today).1, false) := by
  rw [updatePaymentStatus_fst]
  have h := newPaymentStatus_status_irrel e today (newPaymentStatus e today)
  simp [updatePaymentStatus, h]

/-- Claim C3: a credit above the remaining balance is rejected with 400 and
leaves the expectation (in particular its credits) unchanged; a credit of
at most the remaining balance is accepted and appended to the stored
credits; a credit of exactly the remaining balance makes the status
Completed. -/
theorem c3_credit_ceiling (e : PaymentExpectation) (cdata : PaymentCreditCreate)
    (today : Date) :
    (cdata.credited_amount > e.expected_amount - sumCredits e.payment_credits →
       create_payment_credit e cdata today = (.error .badRequest, e))
    ∧ (cdata.credited_amount ≤ e.expected_amount - sumCredits e.payment_credits →
       (create_payment_credit e cdata today).1
           = .ok ⟨cdata.credited_amount, cdata.credited_date, cdata.reference_note⟩
       ∧ (create_payment_credit e cdata today).2.payment_credits
           = e.payment_credits
             ++ [⟨cdata.credited_amount, cdata.credited_date, cdata.reference_note⟩])
    ∧ (cdata.credited_amount = e.expected_amount - sumCredits e.payment_credits →
       (create_payment_credit e cdata today).2.status = .completed) := by
  refine ⟨?_, ?_, ?_⟩
  · intro h
    simp [create_payment_credit, h]
  · intro h
    have h2 : ¬ (cdata.credited_amount >
        e.expected_amount - sumCredits e.payment_credits) := not_lt.mpr h
    constructor
    · simp [create_payment_credit, h2]
    · simp only [create_payment_credit, if_neg h2]
      rw [updatePaymentStatus_fst]
  · intro h
    have h2 : ¬ (cdata.credited_amount >
        e.expected_amount - sumCredits e.payment_credits) := not_lt.mpr h.le
    simp only [create_payment_credit, if_neg h2]
    rw [updatePaymentStatus_fst, newPaymentStatus_eq_spec]
    have htot : sumCredits (e.payment_credits
        ++ [⟨cdata.credited_amount, cdata.credited_date, cdata.reference_note⟩])
        = e.expected_amount := by
      rw [sumCredits_append]
      simp [h]
    simp [specStatus, htot]

/-- Witness for claim C3 at the example of the specification: expected
10000 cents with 8000 already credited; a 2500 credit is rejected and the
row is unchanged; a 2000 credit is exactly the remainder and completes. -/
theorem c3_credit_ceiling_witness :
    ((2500 : Amount) > 10000 - sumCredits [⟨8000, 3, none⟩]
      ∧ create_payment_credit
          ⟨10000, some 5, none, .partiallyPaid, [⟨8000, 3, none⟩]⟩
          ⟨2500, 6, none⟩ 10
          = (.error .badRequest,
             ⟨10000, some 5, none, .partiallyPaid, [⟨8000, 3, none⟩]⟩))
    ∧ ((2000 : Amount) = 10000 - sumCredits [⟨8000, 3, none⟩]
      ∧ (create_payment_credit
          ⟨10000, some 5, none, .partiallyPaid, [⟨8000, 3, none⟩]⟩
          ⟨2000, 6, none⟩ 10).2.status = .completed) := by
  refine ⟨⟨by decide, (c3_credit_ceiling _ _ _).1 (by decide)⟩,
          ⟨by decide, (c3_credit_ceiling _ _ _).2.2 (by decide)⟩⟩

theorem findCollab_replace (db : List Collaboration) (cid uid : Nat)
    (c c1 : Collaboration) (hid : c1.id = cid) (huid : c1.user_id = uid)
    (hfind : findCollaboration db cid uid = some c) :
    findCollaboration (replaceCollaboration db c1) cid uid = some c1 := by
  induction db with
  | nil => simp [findCollaboration] at hfind
  | cons x xs ih =>
    by_cases hxid : x.id = cid
    · have hrep : (x.id == c1.id) = true := by simp [hxid, hid]
      have hp : (c1.id == cid && c1.user_id == uid) = true := by
        simp [hid, huid]
      simp [findCollaboration, replaceCollaboration, List.find?, hrep, hp]
    · have hrep : (x.id == c1.id) = false := by
        simp [hid]
        exact hxid
      have hp : (x.id == cid && x.user_id == uid) = false := by
        simp [hxid]
      have hfind2 : findCollaboration xs cid uid = some c := by
        simpa [findCollaboration, List.find?, hp] using hfind
      have hrest := ih hfind2
      simpa [findCollaboration, replaceCollaboration, List.find?, hrep, hp]
        using hrest

theorem mem_insertByUpdated (a c : Collaboration) (l : List Collaboration) :
    a ∈ insertByUpdated c l ↔ a = c ∨ a ∈ l := by
  induction l with
  | nil => simp [insertByUpdated]
  | cons x xs ih =>
    by_cases h : x.updated_at ≤ c.updated_at
    · simp [insertByUpdated, h]
    · simp [insertByUpdated, h, ih]
      tauto

theorem mem_sortByUpdatedDesc (a : Collaboration) (l : List Collaboration) :
    a ∈ sortByUpdatedDesc l ↔ a ∈ l := by
  induction l with
  | nil => simp [sortByUpdatedDesc]
  | cons x xs ih => simp [sortByUpdatedDesc, mem_insertByUpdated, ih]

/-- Claim C2 counterexample: from InProduction, the target Posted is in the
allowed-next-states row, yet the status-update operation without a
posting_date is rejected with a 400 error, so the succeeds-iff-in-table
claim fails at this input. -/
theorem c2_counterexample :
    CollaborationStatus.posted ∈ validTransitions CollaborationStatus.inProduction
    ∧ update_collaboration_status [⟨1, 1, 1, [], .inProduction, none, 0⟩] 1 1
        .posted none
      = (.error .badRequest, [⟨1, 1, 1, [], .inProduction, none, 0⟩]) :=
  ⟨by decide, rfl⟩

/-- Claim C2 (amended): the status-update operation succeeds iff the target
is in the current-state row of the transition table and, when the target is
Posted, a posting_date is supplied; every pair outside the table is
rejected with a 400 error; in particular every transition out of Closed
fails. -/
theorem c2_transition_table (c : Collaboration) (s : CollaborationStatus)
    (pd : Option Date) :
    ((∃ c1, applyStatusUpdate c s pd = .ok c1) ↔
      (s ∈ validTransitions c.status ∧ (s = .posted → pd ≠ none)))
    ∧ (s ∉ validTransitions c.status →
        applyStatusUpdate c s pd = .error .badRequest)
    ∧ (c.status = .closed → applyStatusUpdate c s pd = .error .badRequest) := by
  have hout : s ∉ validTransitions c.status →
      applyStatusUpdate c s pd = .error .badRequest := by
    intro hmem
    simp [applyStatusUpdate, hmem]
  refine ⟨⟨?_, ?_⟩, hout, ?_⟩
  · rintro ⟨c1, h⟩
    by_cases hmem : s ∈ validTransitions c.status
    · refine ⟨hmem, ?_⟩
      intro hs hpd
      rw [hs, hpd] at h
      simp [applyStatusUpdate, hs ▸ hmem] at h
    · rw [hout hmem] at h
      exact absurd h (by simp)
  · rintro ⟨hmem, hpost⟩
    by_cases hs : s = .posted
    · subst hs
      cases hpd : pd with
      | none => exact absurd hpd (hpost rfl)
      | some d =>
        exact ⟨{ c with status := .posted, posting_date := some d },
               by simp [applyStatusUpdate, hmem]⟩
    · exact ⟨{ c with status := s }, by simp [applyStatusUpdate, hmem, hs]⟩
  · intro hclosed
    apply hout
    rw [hclosed]
    simp [validTransitions]

/-- Witness for claim C2 at a concrete disallowed pair: Lead to Confirmed
is not in the table and is rejected with a 400 error. -/
theorem c2_transition_table_witness :
    CollaborationStatus.confirmed ∉ validTransitions CollaborationStatus.lead
    ∧ applyStatusUpdate ⟨1, 1, 1, [], .lead, none, 0⟩ .confirmed none
        = .error .badRequest :=
  ⟨by decide,
   (c2_transition_table ⟨1, 1, 1, [], .lead, none, 0⟩ .confirmed none).2.1
     (by decide)⟩

/-- Claim C5: when Posted is a legal next state for the found
collaboration, the status update to Posted without a posting_date is
rejected with a 400 error and the table is unchanged, while the same
request with a posting_date succeeds, persists exactly that date together
with the Posted status, and a subsequent read returns it unchanged. -/
theorem c5_posted_requires_date (db : List Collaboration) (cid uid : Nat)
    (c : Collaboration) (d : Date)
    (hfind : findCollaboration db cid uid = some c)
    (hlegal : CollaborationStatus.posted ∈ validTransitions c.status) :
    update_collaboration_status db cid uid .posted none
        = (.error .badRequest, db)
    ∧ (update_collaboration_status db cid uid .posted (some d)).1
        = .ok { c with status := .posted, posting_date := some d }
    ∧ get_collaboration
        (update_collaboration_status db cid uid .posted (some d)).2 cid uid
        = .ok { c with status := .posted, posting_date := some d } := by
  have happly_none : applyStatusUpdate c .posted none = .error .badRequest := by
    simp [applyStatusUpdate, hlegal]
  have happly_some : applyStatusUpdate c .posted (some d)
      = .ok { c with status := .posted, posting_date := some d } := by
    simp [applyStatusUpdate, hlegal]
  have hfind2 : List.find? (fun x => x.id == cid && x.user_id == uid) db
      = some c := hfind
  have hpred0 := List.find?_some hfind2
  have hpred : (c.id == cid && c.user_id == uid) = true := hpred0
  have hcid : c.id = cid := by
    have h1 := (Bool.and_eq_true _ _).mp hpred
    simpa using h1.1
  have huid : c.user_id = uid := by
    have h1 := (Bool.and_eq_true _ _).mp hpred
    simpa using h1.2
  refine ⟨?_, ?_, ?_⟩
  · simp [update_collaboration_status, hfind, happly_none]
  · simp [update_collaboration_status, hfind, happly_some]
  · simp only [update_collaboration_status, hfind, happly_some]
    unfold get_collaboration
    rw [findCollab_replace db cid uid c
      { c with status := .posted, posting_date := some d } hcid huid hfind]

/-- Witness for claim C5 at a concrete collaboration in InProduction. -/
theorem c5_posted_requires_date_witness :
    findCollaboration [⟨1, 7, 2, [], .inProduction, none, 0⟩] 1 7
        = some ⟨1, 7, 2, [], .inProduction, none, 0⟩
    ∧ CollaborationStatus.posted ∈ validTransitions .inProduction
    ∧ update_collaboration_status [⟨1, 7, 2, [], .inProduction, none, 0⟩] 1 7
        .posted none
        = (.error .badRequest, [⟨1, 7, 2, [], .inProduction, none, 0⟩])
    ∧ (update_collaboration_status [⟨1, 7, 2, [], .inProduction, none, 0⟩] 1 7
        .posted (some 5)).1
        = .ok ⟨1, 7, 2, [], .posted, some 5, 0⟩ := by
  have h := c5_posted_requires_date [⟨1, 7, 2, [], .inProduction, none, 0⟩] 1 7
    ⟨1, 7, 2, [], .inProduction, none, 0⟩ 5 rfl (by decide)
  exact ⟨rfl, by decide, h.1, h.2.1⟩

/-- Claim C7 counterexample: with a supplied brand_id filter of 0, the
Python truthiness guard disables the filter, so the listing returns a
collaboration whose brand_id is 1, not 0, contradicting the claim that
exactly the collaborations with brand_id equal to the filter value are
returned. -/
theorem c7_counterexample :
    (list_collaborations [⟨1, 7, 1, [], .lead, none, 0⟩] 7
        ⟨none, some 0, none, 50, 0⟩).collaborations
      = [⟨1, 7, 1, [], .lead, none, 0⟩]
    ∧ (⟨1, 7, 1, [], .lead, none, 0⟩ : Collaboration).brand_id ≠ 0 :=
  ⟨rfl, by decide⟩

/-- Claim C7 (amended): for every supplied nonzero brand_id filter value b,
the listing returns exactly the page of the caller collaborations whose
brand_id equals b intersected with the other active filters, and the
reported filtered_count is the number of matching collaborations; a
supplied b equal to 0 disables the brand filter. -/
theorem c7_brand_filter (db : List Collaboration) (uid : Nat)
    (q : CollabListQuery) (b : Nat) (hq : q.brand_id = some b)
    (hb : b ≠ 0) :
    (list_collaborations db uid q).collaborations
        = ((sortByUpdatedDesc (db.filter (fun c =>
            c.user_id == uid && statusFilterMatches q.status_filter c &&
            c.brand_id == b && platformFilterMatches q.platform c))).drop
            q.offset).take q.limit
    ∧ (list_collaborations db uid q).filtered_count
        = (db.filter (fun c =>
            c.user_id == uid && statusFilterMatches q.status_filter c &&
            c.brand_id == b && platformFilterMatches q.platform c)).length
    ∧ ∀ c ∈ (list_collaborations db uid q).collaborations,
        c.user_id = uid ∧ c.brand_id = b := by
  have hb0 : (b == 0) = false := by
    simpa using hb
  have hpred : ∀ c ∈ db, collabMatchesFilters uid q c
      = (c.user_id == uid && statusFilterMatches q.status_filter c &&
         c.brand_id == b && platformFilterMatches q.platform c) := by
    intro c _
    simp only [collabMatchesFilters, brandFilterMatches, hq, hb0,
      Bool.if_false_left]
    rfl
  have hfil := List.filter_congr hpred
  refine ⟨?_, ?_, ?_⟩
  · simp only [list_collaborations, hfil]
  · simp only [list_collaborations, hfil]
  · intro c hc
    simp only [list_collaborations] at hc
    have h1 : c ∈ sortByUpdatedDesc (db.filter (collabMatchesFilters uid q)) :=
      List.mem_of_mem_drop (List.mem_of_mem_take hc)
    rw [mem_sortByUpdatedDesc] at h1
    have h2 := List.of_mem_filter h1
    simp only [collabMatchesFilters, brandFilterMatches, hq, hb0,
      Bool.if_false_left, Bool.and_eq_true, beq_iff_eq] at h2
    have h3 : c.brand_id = b := by simpa using h2.1.2
    exact ⟨h2.1.1.1, h3⟩

/-- Witness for claim C7 at a concrete table of two collaborations of the
caller, one matching the brand filter value 3. -/
theorem c7_brand_filter_witness :
    (⟨none, some 3, none, 50, 0⟩ : CollabListQuery).brand_id = some 3
    ∧ (3 : Nat) ≠ 0
    ∧ (list_collaborations
        [⟨1, 7, 2, [], .lead, none, 0⟩, ⟨2, 7, 3, [], .lead, none, 5⟩] 7
        ⟨none, some 3, none, 50, 0⟩).filtered_count
      = ([⟨1, 7, 2, [], .lead, none, 0⟩,
          ⟨2, 7, 3, [], .lead, none, 5⟩].filter (fun c =>
            c.user_id == 7 && statusFilterMatches none c &&
            c.brand_id == 3 && platformFilterMatches none c)).length :=
  ⟨rfl, by decide,
   (c7_brand_filter
     [⟨1, 7, 2, [], .lead, none, 0⟩, ⟨2, 7, 3, [], .lead, none, 5⟩] 7
     ⟨none, some 3, none, 50, 0⟩ 3 rfl (by decide)).2.1⟩

theorem update_brand_ok_contact (b : Brand) (u : BrandUpdate) (b1 : Brand)
    (h : update_brand b u = .ok b1) :
    b1.contact_name = applyField u.contact_name b.contact_name
    ∧ b1.contact_email = applyField u.contact_email b.contact_email
    ∧ b1.contact_channel = applyField u.contact_channel b.contact_channel
    ∧ b1.notes = applyField u.notes b.notes := by
  cases hn : u.name with
  | none =>
    simp only [update_brand, hn] at h
    have hb1 : b1 = applyContactFields b u := by
      cases h
      rfl
    subst hb1
    exact ⟨rfl, rfl, rfl, rfl⟩
  | some nv =>
    cases nv with
    | none =>
      simp only [update_brand, hn] at h
      cases h
    | some s =>
      simp only [update_brand, hn] at h
      by_cases hs : s = [] ∨ pyStrip s = []
      · rw [if_pos hs] at h
        cases h
      · rw [if_neg hs] at h
        have hb1 : b1 = applyContactFields { b with name := pyStrip s } u := by
          cases h
          rfl
        subst hb1
        exact ⟨rfl, rfl, rfl, rfl⟩

/-- Claim C6 counterexample: a brand update supplying a whitespace-only
contact_name stores the empty string, not an absent value: the Python
truthiness guard only collapses the already-empty string to None, while a
whitespace-only string is truthy and is stored as its strip, the empty
string. -/
theorem c6_counterexample :
    update_brand ⟨1, 1, ['B'], none, none, none, none, 0⟩
        ⟨none, some (some [' ']), none, none, none⟩
      = .ok ⟨1, 1, ['B'], some [], none, none, none, 0⟩
    ∧ pyStrip [' '] = ([] : Str)
    ∧ some ([] : Str) ≠ (none : Option Str) :=
  ⟨rfl, rfl, by simp⟩

/-- Claim C6 (amended): on a successful brand update, each of the four
optional string fields behaves as follows: an omitted field is unchanged;
a field supplied as null is stored as null; a field supplied as the empty
string is stored as null; a field supplied as any non-empty string is
stored as its trimmed value, so a whitespace-only string is stored as the
empty string rather than as null. -/
theorem c6_optional_field_trimming (b : Brand) (u : BrandUpdate) (b1 : Brand)
    (h : update_brand b u = .ok b1) :
    ((u.contact_name = none → b1.contact_name = b.contact_name)
      ∧ (u.contact_name = some none → b1.contact_name = none)
      ∧ (∀ s, u.contact_name = some (some s) →
          b1.contact_name = if s = [] then none else some (pyStrip s)))
    ∧ ((u.contact_email = none → b1.contact_email = b.contact_email)
      ∧ (u.contact_email = some none → b1.contact_email = none)
      ∧ (∀ s, u.contact_email = some (some s) →
          b1.contact_email = if s = [] then none else some (pyStrip s)))
    ∧ ((u.contact_channel = none → b1.contact_channel = b.contact_channel)
      ∧ (u.contact_channel = some none → b1.contact_channel = none)
      ∧ (∀ s, u.contact_channel = some (some s) →
          b1.contact_channel = if s = [] then none else some (pyStrip s)))
    ∧ ((u.notes = none → b1.notes = b.notes)
      ∧ (u.notes = some none → b1.notes = none)
      ∧ (∀ s, u.notes = some (some s) →
          b1.notes = if s = [] then none else some (pyStrip s))) := by
  obtain ⟨h1, h2, h3, h4⟩ := update_brand_ok_contact b u b1 h
  refine ⟨⟨?_, ?_, ?_⟩, ⟨?_, ?_, ?_⟩, ⟨?_, ?_, ?_⟩, ⟨?_, ?_, ?_⟩⟩
  · intro hf
    rw [h1, hf]
    rfl
  · intro hf
    rw [h1, hf]
    rfl
  · intro s hf
    rw [h1, hf]
    rfl
  · intro hf
    rw [h2, hf]
    rfl
  · intro hf
    rw [h2, hf]
    rfl
  · intro s hf
    rw [h2, hf]
    rfl
  · intro hf
    rw [h3, hf]
    rfl
  · intro hf
    rw [h3, hf]
    rfl
  · intro s hf
    rw [h3, hf]
    rfl
  · intro hf
    rw [h4, hf]
    rfl
  · intro hf
    rw [h4, hf]
    rfl
  · intro s hf
    rw [h4, hf]
    rfl

/-- Witness for claim C6 at a concrete brand update supplying a
contact_name with trailing whitespace. -/
theorem c6_optional_field_trimming_witness :
    update_brand ⟨1, 1, ['B'], none, none, none, none, 0⟩
        ⟨none, some (some ['x', ' ']), none, none, none⟩
      = .ok ⟨1, 1, ['B'], some ['x'], none, none, none, 0⟩
    ∧ (⟨1, 1, ['B'], some ['x'], none, none, none, 0⟩ : Brand).contact_name
        = (if (['x', ' '] : Str) = [] then none else some (pyStrip ['x', ' '])) :=
  ⟨rfl,
   (c6_optional_field_trimming ⟨1, 1, ['B'], none, none, none, none, 0⟩
     ⟨none, some (some ['x', ' ']), none, none, none⟩
     ⟨1, 1, ['B'], some ['x'], none, none, none, 0⟩ rfl).1.2.2 ['x', ' '] rfl⟩

/-- Claim C8: an update supplying only the brand name, non-blank after
trimming, succeeds, stores the trimmed name, and leaves id, contact_name,
contact_email, contact_channel, notes, and created_at exactly as they
were. -/
theorem c8_name_only_update (b : Brand) (s : Str) (h : pyStrip s ≠ []) :
    update_brand b ⟨some (some s), none, none, none, none⟩
      = .ok { b with name := pyStrip s }
    ∧ ({ b with name := pyStrip s } : Brand).id = b.id
    ∧ ({ b with name := pyStrip s } : Brand).contact_name = b.contact_name
    ∧ ({ b with name := pyStrip s } : Brand).contact_email = b.contact_email
    ∧ ({ b with name := pyStrip s } : Brand).contact_channel = b.contact_channel
    ∧ ({ b with name := pyStrip s } : Brand).notes = b.notes
    ∧ ({ b with name := pyStrip s } : Brand).created_at = b.created_at := by
  have hs : ¬ (s = [] ∨ pyStrip s = []) := by
    rintro (h1 | h2)
    · apply h
      rw [h1]
      rfl
    · exact h h2
  refine ⟨?_, rfl, rfl, rfl, rfl, rfl, rfl⟩
  simp only [update_brand, if_neg hs]
  rfl

/-- Witness for claim C8 at a concrete brand and a name with trailing
whitespace. -/
theorem c8_name_only_update_witness :
    pyStrip ['N', 'u', ' '] ≠ ([] : Str)
    ∧ update_brand ⟨2, 3, ['B'], some ['c'], none, none, some ['n'], 9⟩
        ⟨some (some ['N', 'u', ' ']), none, none, none, none⟩
      = .ok ⟨2, 3, ['N', 'u'], some ['c'], none, none, some ['n'], 9⟩ :=
  ⟨by decide,
   (c8_name_only_update ⟨2, 3, ['B'], some ['c'], none, none, some ['n'], 9⟩
     ['N', 'u', ' '] (by decide)).1⟩

theorem register_preserves_unique (hash : Str → Str) (db : List UserRec)
    (e p : Str) (h : emailUnique db) :
    emailUnique (register_user hash db e p).2 := by
  unfold register_user
  cases hf : db.find? (fun u => u.email == e) with
  | some u => simpa using h
  | none =>
    intro e2
    simp only [countEmail, List.filter_append, List.length_append]
    by_cases he : e = e2
    · have h0 : (db.filter (fun u => u.email == e2)).length = 0 := by
        rw [List.length_eq_zero, List.filter_eq_nil_iff]
        intro u hu
        have hne := List.find?_eq_none.mp hf u hu
        subst he
        simpa using hne
      have h2 : (([⟨db.length + 1, e, hash p⟩] : List UserRec).filter
          (fun u => u.email == e2)).length ≤ 1 :=
        le_trans (List.length_filter_le _ _) (by simp)
      omega
    · have h1 : (([⟨db.length + 1, e, hash p⟩] : List UserRec).filter
          (fun u => u.email == e2)).length = 0 := by
        simp [he]
      rw [h1]
      simpa [countEmail] using h e2

theorem registerAll_preserves_unique (hash : Str → Str)
    (attempts : List (Str × Str)) :
    ∀ db, emailUnique db → emailUnique (registerAll hash attempts db) := by
  induction attempts with
  | nil =>
    intro db h
    exact h
  | cons a rest ih =>
    intro db h
    obtain ⟨e, p⟩ := a
    exact ih _ (register_preserves_unique hash db e p h)

/-- Claim C4: registering an email that already has a user row always
fails with a 409 conflict and leaves the table unchanged, and after any
sequence of registration attempts starting from a table with unique
emails, every email still has at most one user row. -/
theorem c4_duplicate_registration (hash : Str → Str) (db : List UserRec)
    (attempts : List (Str × Str)) (email pw : Str)
    (huniq : emailUnique db) :
    ((∃ u, u ∈ db ∧ u.email = email) →
      register_user hash db email pw = (.error .conflict, db))
    ∧ emailUnique (registerAll hash attempts db) := by
  constructor
  · rintro ⟨u, hu, hmail⟩
    unfold register_user
    cases hf : db.find? (fun x => x.email == email) with
    | some v => rfl
    | none =>
      have := List.find?_eq_none.mp hf u hu
      simp [hmail] at this
  · exact registerAll_preserves_unique hash attempts db huniq

/-- Witness for claim C4: one registered account, and two further attempts
at the same email; the first retry is answered with a conflict and the
final table still has at most one row per email. -/
theorem c4_duplicate_registration_witness :
    emailUnique [⟨1, ['a'], ['p']⟩]
    ∧ register_user id [⟨1, ['a'], ['p']⟩] ['a'] ['q']
        = (.error .conflict, [⟨1, ['a'], ['p']⟩])
    ∧ emailUnique
        (registerAll id [(['a'], ['q']), (['a'], ['r'])] [⟨1, ['a'], ['p']⟩]) := by
  have huniq : emailUnique [⟨1, ['a'], ['p']⟩] := by
    intro e
    exact le_trans (List.length_filter_le _ _) (by decide)
  have h := c4_duplicate_registration id [⟨1, ['a'], ['p']⟩]
    [(['a'], ['q']), (['a'], ['r'])] ['a'] ['q'] huniq
  exact ⟨huniq, h.1 ⟨⟨1, ['a'], ['p']⟩, by simp, rfl⟩, h.2⟩

/-- Claim C10: the 413 payload-too-large rejection is decided only by the
client-declared size: with an absent declared size or a declared size of 0
it is never raised whatever the actual content, and for any fixed declared
size the outcome of the 413 gate is independent of the bytes actually
uploaded. -/
theorem c10_size_gate_declared_only (suffix : Str) (content c1 c2 : List Nat)
    (d : Option Nat) :
    upload_file none suffix content ≠ .error .payloadTooLarge
    ∧ upload_file (some 0) suffix content ≠ .error .payloadTooLarge
    ∧ (upload_file d suffix c1 = .error .payloadTooLarge
        ↔ upload_file d suffix c2 = .error .payloadTooLarge) := by
  have key : ∀ dd (cc : List Nat), sizeRejected dd = false →
      upload_file dd suffix cc ≠ .error .payloadTooLarge := by
    intro dd cc hs0 hcontra
    simp only [upload_file, hs0] at hcontra
    rw [if_neg (by simp)] at hcontra
    split at hcontra <;> simp_all
  refine ⟨key none content rfl, key (some 0) content rfl, ?_⟩
  cases hs : sizeRejected d with
  | true => simp [upload_file, hs]
  | false =>
    constructor
    · intro h1
      exact absurd h1 (key d c1 hs)
    · intro h2
      exact absurd h2 (key d c2 hs)

/-- Witness for claim C1 at a concrete expectation with no credits and a
promised date before today. -/
theorem c1_payment_status_recomputation_witness :
    (updatePaymentStatus ⟨10000, some 5, none, .pending, []⟩ 10).1.status
      = specStatus 10000 (sumCredits []) (some 5) 10 :=
  (c1_payment_status_recomputation ⟨10000, some 5, none, .pending, []⟩ []
    ⟨10000, some 5, none⟩ ⟨2000, 6, none⟩ 10).1

/-- Witness for claim C9 at a concrete expectation. -/
theorem c9_recompute_idempotent_witness :
    updatePaymentStatus
        ((updatePaymentStatus ⟨10000, some 5, none, .pending, []⟩ 10).1) 10
      = ((updatePaymentStatus ⟨10000, some 5, none, .pending, []⟩ 10).1, false) :=
  c9_recompute_idempotent ⟨10000, some 5, none, .pending, []⟩ 10

/-- Witness for claim C10: an upload with no declared size and a non-empty
body is not rejected as too large. -/
theorem c10_size_gate_declared_only_witness :
    upload_file none ".pdf".toList (List.replicate 100 0)
      ≠ .error .payloadTooLarge :=
  (c10_size_gate_declared_only ".pdf".toList (List.replicate 100 0) [] []
    none).1

end CollabKhata
